import Mathlib

/-!
Shallow embedding of the patient data layer of the repository:
`src/store/patientSlice.ts` (Redux store path, namespace `Slice`) and
`src/api/patient-hooks.ts` (React Query cache path, namespace `Hooks`).

JavaScript conventions modelled explicitly:
- a possibly-absent string field is `Option String`; the JS truthiness test
  `a || b` treats both `undefined` and the empty string as falsy (`jsOrD`,
  `jsOrOpt`);
- `new Date(s)` never throws: an unparseable string yields an Invalid Date
  whose components are NaN; since `NaN < 0`, `NaN === 0` and
  `today.getDate() < NaN` are all false and `String(NaN)` is `"NaN"`, the
  age computation on an unparseable date returns the string `"NaN"`
  (the `catch` in `calculateAge` is dead code);
- `toISOString()` does throw on an Invalid Date, so the `catch` in
  `formatDate` is live;
- platform date parsing/formatting and the current date are abstracted
  into a `DateEnv` record passed explicitly.
-/

/-- JS `a || b` for an optional string `a` against a string default `b`:
`undefined` and `""` are falsy. -/
def jsOrD : Option String → String → String
  | none, d => d
  | some s, d => if s = "" then d else s

/-- JS `a || b` for two optional strings, keeping the result optional. -/
def jsOrOpt : Option String → Option String → Option String
  | none, b => b
  | some s, b => if s = "" then b else some s

/-- JS `toLowerCase()` (ASCII), computed structurally on the character
list. -/
def jsToLower (s : String) : String :=
  String.mk (s.data.map Char.toLower)

/-- JS `trim()`: strip leading and trailing whitespace, computed
structurally on the character list. -/
def jsTrim (s : String) : String :=
  String.mk (((s.data.dropWhile Char.isWhitespace).reverse.dropWhile
    Char.isWhitespace).reverse)

/-- Lookup in an object literal used as a string-to-string map. -/
def lookupTbl (tbl : List (String × String)) (k : String) : Option String :=
  (tbl.find? (fun e => e.1 == k)).map (fun e => e.2)

/-- Year / month / day components as JS `getFullYear` / `getMonth` (0-based) /
`getDate` return them. -/
structure SimpleDate where
  year : Int
  month : Int
  day : Int
deriving DecidableEq

/-- Abstraction of the JS `Date` platform library: a parser (returning `none`
for an Invalid Date), the current date, and the `toISOString`-based
`YYYY/MM/DD` formatter together with the formatted current date. -/
structure DateEnv where
  parse : String → Option SimpleDate
  today : SimpleDate
  isoFormat : SimpleDate → String
  todayFormatted : String

/-- A transport-layer failure (axios error): the optional
`error.response.data.message` and the optional `error.message`. -/
structure TransportError where
  responseDataMessage : Option String
  message : Option String
deriving DecidableEq

/-- Models `error?.response?.data?.message || error?.message || fallback`. -/
def errMessage (e : TransportError) (fallback : String) : String :=
  jsOrD e.responseDataMessage (jsOrD e.message fallback)

/-- Outcome of an `api.post` call: a parsed response body, or a thrown
transport error. -/
inductive TransportResult (α : Type) where
  | ok (a : α)
  | err (e : TransportError)

namespace Slice

/-- A raw patient record from the remote API (`any`-typed in the source);
every field may be absent. -/
structure RawRecord where
  midasid : Option String := none
  userid : Option String := none
  fname : Option String := none
  lname : Option String := none
  gender : Option String := none
  dobbs : Option String := none
  dobad : Option String := none
  emailaddress : Option String := none
  mobilenumber : Option String := none
  phone : Option String := none
  user_type : Option String := none
  districtname : Option String := none
  vdcname : Option String := none
  wardno : Option String := none
  address : Option String := none
  createddate : Option String := none
  datapostdatetime : Option String := none
deriving DecidableEq

/-- The `Patient` interface of `src/store/patientSlice.ts`. -/
structure Patient where
  id : String
  firstName : String
  lastName : String
  gender : String
  age : String
  year : String
  dateOfBirth : String
  email : String
  phone : String
  relationship : String
  district : String
  vdcMunicipality : String
  wardNo : String
  tole : String
  createdAt : String
  updatedAt : String
deriving DecidableEq

/-- The `PatientFormData` interface (identical field set to `CreatePatientData`
in `src/api/patient-hooks.ts`). -/
structure PatientFormData where
  firstName : String
  lastName : String
  gender : String
  age : String
  year : String
  dateOfBirth : String
  email : String
  phone : String
  relationship : String
  district : String
  vdcMunicipality : String
  wardNo : String
  tole : String
deriving DecidableEq

/-- The `PatientApiResponse` envelope: the remote envelope. `list` is `none` when absent
or not an array; an element is `none` when it is not a non-null object. -/
structure ApiResponse where
  message : String
  type : String
  list : Option (List (Option RawRecord)) := none
  my : Option RawRecord := none

/-- The `PatientState` of the Redux slice. -/
structure PatientState where
  patients : List Patient
  loading : Bool
  error : Option String
  successMessage : Option String
deriving DecidableEq

/-- Initial slice state. -/
def initialState : PatientState :=
  { patients := [], loading := false, error := none, successMessage := none }

/-- Source `getRelationshipId` relation table (`src/store/patientSlice.ts:116`). -/
def relationMap : List (String × String) :=
  [("spouse", "1"), ("father", "2"), ("mother", "2"), ("parent", "3"),
   ("child", "4"), ("son", "4"), ("daughter", "4"), ("sibling", "5"),
   ("brother", "5"), ("sister", "5"), ("grandparent", "6"),
   ("grandchild", "7"), ("relative", "8"), ("other", "9")]

/-- Source `getRelationshipId`: `relationMap[relationship.toLowerCase()] || "9"`. -/
def getRelationshipId (relationship : String) : String :=
  jsOrD (lookupTbl relationMap (jsToLower relationship)) "9"

/-- Source `getDistrictId` district table (`src/store/patientSlice.ts:141`). -/
def districtMap : List (String × String) :=
  [("kathmandu", "46"), ("lalitpur", "47"), ("bhaktapur", "47"),
   ("chitwan", "28"), ("pokhara", "37"), ("biratnagar", "56"),
   ("birgunj", "52"), ("dharan", "61"), ("butwal", "35"), ("hetauda", "50")]

/-- Source `getDistrictId`: `districtMap[district.toLowerCase()] || "46"`. -/
def getDistrictId (district : String) : String :=
  jsOrD (lookupTbl districtMap (jsToLower district)) "46"

/-- Source `getVdcId` VDC table (`src/store/patientSlice.ts:162`). -/
def vdcMap : List (String × String) :=
  [("municipality_a", "1147"), ("municipality_b", "1148"),
   ("municipality_c", "1149"), ("vdc_a", "1150"), ("vdc_b", "1151")]

/-- Source `getVdcId`: `vdcMap[vdcMunicipality.toLowerCase()] || "1147"`. -/
def getVdcId (vdcMunicipality : String) : String :=
  jsOrD (lookupTbl vdcMap (jsToLower vdcMunicipality)) "1147"

/-- Source `calculateAge` (`src/store/patientSlice.ts:203`). A falsy argument
returns `"Unknown"`. Otherwise `new Date(dob)` never throws: an
unparseable string gives an Invalid Date with NaN components, every NaN
comparison is false, and `String(NaN)` is `"NaN"`, so the unparseable
branch returns `"NaN"` and the `catch` is dead. -/
def calculateAge (env : DateEnv) (dob : Option String) : String :=
  match dob with
  | none => "Unknown"
  | some s =>
    if s = "" then "Unknown"
    else
      match env.parse s with
      | none => "NaN"
      | some birthDate =>
        let age := env.today.year - birthDate.year
        let monthDiff := env.today.month - birthDate.month
        if monthDiff < 0 ∨ (monthDiff = 0 ∧ env.today.day < birthDate.day)
        then toString (age - 1)
        else toString age

/-- Source `formatDate` (`src/store/patientSlice.ts:230`): a falsy argument
formats the current date; `toISOString` throws on an Invalid Date, so an
unparseable string also formats the current date via the `catch`. -/
def formatDate (env : DateEnv) (dateStr : Option String) : String :=
  match dateStr with
  | none => env.todayFormatted
  | some s =>
    if s = "" then env.todayFormatted
    else
      match env.parse s with
      | none => env.todayFormatted
      | some d => env.isoFormat d

/-- Source `transformPatientData` (`src/store/patientSlice.ts:177`). -/
def transformPatientData (env : DateEnv) (apiPatient : RawRecord) : Patient :=
  { id := jsOrD apiPatient.midasid (jsOrD apiPatient.userid "unknown"),
    firstName := jsOrD apiPatient.fname "",
    lastName := jsOrD apiPatient.lname "",
    gender := jsOrD (apiPatient.gender.map (fun s => jsTrim (jsToLower s))) "",
    age := calculateAge env (jsOrOpt apiPatient.dobbs apiPatient.dobad),
    year := "Years",
    dateOfBirth := jsOrD apiPatient.dobbs (jsOrD apiPatient.dobad ""),
    email := jsOrD apiPatient.emailaddress "",
    phone := jsOrD apiPatient.mobilenumber (jsOrD apiPatient.phone ""),
    relationship := if apiPatient.user_type == some "self" then "self" else "relative",
    district := "District " ++ jsOrD apiPatient.districtname "undefined",
    vdcMunicipality := "Municipality " ++ jsOrD apiPatient.vdcname "A",
    wardNo := jsOrD apiPatient.wardno "1",
    tole := jsOrD apiPatient.address "Unknown",
    createdAt := formatDate env apiPatient.createddate,
    updatedAt := formatDate env apiPatient.datapostdatetime }

/-- Body of the `fetchPatients` thunk (`src/store/patientSlice.ts:251`),
given the outcome of the `api.post` call. `Except.error` models
`rejectWithValue`. Elements of `list` that are not non-null objects are
skipped; an absent or non-array `list` contributes nothing. -/
def fetchPatientsThunk (env : DateEnv) :
    TransportResult ApiResponse → Except String (List Patient)
  | .err e => .error (errMessage e "Network error occurred while fetching patients")
  | .ok resp =>
    if resp.type ≠ "success" then
      .error "Failed to fetch patients from server"
    else
      let fromMy : List Patient :=
        match resp.my with
        | some m => [transformPatientData env m]
        | none => []
      let entries : List (Option RawRecord) := resp.list.getD []
      .ok (fromMy ++ entries.filterMap (fun e => e.map (transformPatientData env)))

/-- The outbound `apiData` built inside the `createPatient` thunk
(`src/store/patientSlice.ts:300`). -/
structure OutPayload where
  fname : String
  lname : String
  gender : String
  age : String
  agetype : String
  email : String
  mobileno : String
  countrycode : String
  relationid : String
  districtid : String
  vdcid : String
  wardno : String
  address : String
  addtorelative : String
deriving DecidableEq

/-- The `apiData` construction in `createPatient` (`src/store/patientSlice.ts:300`):
note `gender: patientData.gender === "male" ? "Male" : "Female"`. -/
def createApiData (patientData : PatientFormData) : OutPayload :=
  { fname := patientData.firstName,
    lname := patientData.lastName,
    gender := if patientData.gender = "male" then "Male" else "Female",
    age := patientData.age,
    agetype := patientData.year,
    email := patientData.email,
    mobileno := patientData.phone,
    countrycode := "977",
    relationid := getRelationshipId patientData.relationship,
    districtid := getDistrictId patientData.district,
    vdcid := getVdcId patientData.vdcMunicipality,
    wardno := patientData.wardNo,
    address := patientData.tole,
    addtorelative := "Y" }

/-- Body of the `createPatient` thunk (`src/store/patientSlice.ts:297`)
after the `api.post` call resolves. -/
def createPatientThunk : TransportResult ApiResponse → Except String ApiResponse
  | .err e => .error (errMessage e "Network error occurred while creating patient")
  | .ok resp =>
    if resp.type ≠ "success" then
      .error (jsOrD (some resp.message) "Failed to create patient")
    else
      .ok resp

/-- The `clearError` reducer. -/
def clearError (state : PatientState) : PatientState :=
  { state with error := none }

/-- The `clearSuccessMessage` reducer. -/
def clearSuccessMessage (state : PatientState) : PatientState :=
  { state with successMessage := none }

/-- The `resetPatientState` reducer: sets all four fields back to the initial
values. -/
def resetPatientState (state : PatientState) : PatientState :=
  { state with patients := [], loading := false, error := none, successMessage := none }

/-- JS `Array.prototype.findIndex`, with `none` for the `-1` sentinel. -/
def findIndexP {α : Type} (p : α → Bool) : List α → Option Nat
  | [] => none
  | x :: xs => if p x then some 0 else (findIndexP p xs).map (· + 1)

/-- The `updatePatient` reducer (`src/store/patientSlice.ts:394`): replace the
first entry whose `id` matches the payload `id`, if any. -/
def updatePatient (state : PatientState) (payload : Patient) : PatientState :=
  match findIndexP (fun p => p.id == payload.id) state.patients with
  | none => state
  | some index => { state with patients := state.patients.set index payload }

/-- Case `fetchPatients.pending`. -/
def fetchPending (state : PatientState) : PatientState :=
  { state with loading := true, error := none }

/-- Case `fetchPatients.fulfilled`. -/
def fetchFulfilled (state : PatientState) (payload : List Patient) : PatientState :=
  { state with loading := false, patients := payload, error := none }

/-- Case `fetchPatients.rejected`. -/
def fetchRejected (state : PatientState) (payload : String) : PatientState :=
  { state with loading := false, error := some payload }

/-- Case `createPatient.pending`. -/
def createPending (state : PatientState) : PatientState :=
  { state with loading := true, error := none, successMessage := none }

/-- Case `createPatient.fulfilled`. -/
def createFulfilled (state : PatientState) (payload : ApiResponse) : PatientState :=
  { state with loading := false, successMessage := some payload.message, error := none }

/-- Case `createPatient.rejected`. -/
def createRejected (state : PatientState) (payload : String) : PatientState :=
  { state with loading := false, error := some payload }

/-- One whole fetch operation: pending, then fulfilled or rejected
according to the thunk outcome. -/
def fetchLifecycle (env : DateEnv) (state : PatientState)
    (tr : TransportResult ApiResponse) : PatientState :=
  match fetchPatientsThunk env tr with
  | .ok ps => fetchFulfilled (fetchPending state) ps
  | .error m => fetchRejected (fetchPending state) m

/-- One whole create operation: pending, then fulfilled or rejected
according to the thunk outcome. -/
def createLifecycle (state : PatientState)
    (tr : TransportResult ApiResponse) : PatientState :=
  match createPatientThunk tr with
  | .ok resp => createFulfilled (createPending state) resp
  | .error m => createRejected (createPending state) m

end Slice

namespace Hooks

/-- The `Patient` interface of `src/api/patient-hooks.ts` (timestamps are
optional there). -/
structure PatientH where
  id : String
  firstName : String
  lastName : String
  gender : String
  age : String
  year : String
  dateOfBirth : String
  email : String
  phone : String
  relationship : String
  district : String
  vdcMunicipality : String
  wardNo : String
  tole : String
  createdAt : Option String := none
  updatedAt : Option String := none
deriving DecidableEq

/-- Models `Partial<CreatePatientData>`: each form field may be present or absent. -/
structure PartialCreatePatientData where
  firstName : Option String := none
  lastName : Option String := none
  gender : Option String := none
  age : Option String := none
  year : Option String := none
  dateOfBirth : Option String := none
  email : Option String := none
  phone : Option String := none
  relationship : Option String := none
  district : Option String := none
  vdcMunicipality : Option String := none
  wardNo : Option String := none
  tole : Option String := none
deriving DecidableEq

/-- The `CreateRelativeRequest` interface. -/
structure CreateRelativeRequest where
  fname : String
  lname : String
  age : String
  agetype : String
  countrycode : String
  mobileno : String
  email : String
  gender : String
  relationid : String
  address : String
  districtid : String
  vdcid : String
  wardno : String
  addtorelative : String
deriving DecidableEq

/-- Nested `response` object of `CreateRelativeResponse`. -/
structure CreateRelativeResponseBody where
  relativemidasuserid : Int
  userid : Bool
  fname : String
  lname : String
  districtid : String
  vdcid : String
  address : String
  countrycode : String
deriving DecidableEq

/-- The `CreateRelativeResponse` interface. -/
structure CreateRelativeResponse where
  type : String
  message : String
  response : CreateRelativeResponseBody
deriving DecidableEq

/-- Key `patientKeys.all`. -/
def allKey : List String := ["patients"]

/-- Key `patientKeys.lists()`. -/
def listsKey : List String := allKey ++ ["list"]

/-- Key `patientKeys.details()`. -/
def detailsKey : List String := allKey ++ ["detail"]

/-- Key `patientKeys.detail(id)`. -/
def detailKey (id : String) : List String := detailsKey ++ [id]

/-- Source `getRelationId` relation table (`src/api/patient-hooks.ts:241`). -/
def relationMap : List (String × String) :=
  [("spouse", "1"), ("child", "2"), ("parent", "3"), ("sibling", "4"),
   ("grandparent", "5"), ("grandchild", "6"), ("relative", "9"), ("other", "9")]

/-- Source `getRelationId`: `relationMap[relationship.toLowerCase()] || "9"`. -/
def getRelationId (relationship : String) : String :=
  jsOrD (lookupTbl relationMap (jsToLower relationship)) "9"

/-- Source `getDistrictId` district table (`src/api/patient-hooks.ts:257`). -/
def districtMap : List (String × String) :=
  [("kathmandu", "45"), ("lalitpur", "46"), ("bhaktapur", "47")]

/-- Source `getDistrictId`: `districtMap[district.toLowerCase()] || "45"`. -/
def getDistrictId (district : String) : String :=
  jsOrD (lookupTbl districtMap (jsToLower district)) "45"

/-- Source `getVdcId` VDC table (`src/api/patient-hooks.ts:269`). -/
def vdcMap : List (String × String) :=
  [("municipality_a", "1147"), ("municipality_b", "1148")]

/-- Source `getVdcId`: `vdcMap[vdcMunicipality.toLowerCase()] || "1147"`. -/
def getVdcId (vdcMunicipality : String) : String :=
  jsOrD (lookupTbl vdcMap (jsToLower vdcMunicipality)) "1147"

/-- Models `data.gender.charAt(0).toUpperCase() + data.gender.slice(1)`. -/
def capitalizeFirst (s : String) : String :=
  match s.data with
  | [] => ""
  | c :: cs => String.mk (c.toUpper :: cs)

/-- Source `cleanPhoneNumber` (`src/api/patient-hooks.ts:422`): strip non-digits,
a leading `977` country code, then a leading `0`, computed structurally
on the character list. -/
def cleanPhoneNumber (phone : String) : String :=
  if phone = "" then ""
  else
    let clean1 := phone.data.filter Char.isDigit
    let clean2 := match clean1 with
      | '9' :: '7' :: '7' :: rest => rest
      | other => other
    let clean3 := match clean2 with
      | '0' :: rest => rest
      | other => other
    String.mk clean3

/-- The `apiData` built inside `useCreatePatient`
(`src/api/patient-hooks.ts:195`); form data type is the same field set as
`Slice.PatientFormData`. -/
def buildCreateRelativeRequest (data : Slice.PatientFormData) : CreateRelativeRequest :=
  { fname := data.firstName,
    lname := data.lastName,
    age := data.age,
    agetype := jsOrD (some data.year) "Years",
    countrycode := "977",
    mobileno := cleanPhoneNumber data.phone,
    email := data.email,
    gender := capitalizeFirst data.gender,
    relationid := getRelationId data.relationship,
    address := data.tole,
    districtid := getDistrictId data.district,
    vdcid := getVdcId data.vdcMunicipality,
    wardno := data.wardNo,
    addtorelative := "Y" }

/-- The merged patient built inside `useUpdatePatient`
(`src/api/patient-hooks.ts:307`): spread of the existing entity, then the
partial form data, then a fresh `updatedAt`. -/
def mergePatient (existing : PatientH) (data : PartialCreatePatientData)
    (now : String) : PatientH :=
  { id := existing.id,
    firstName := data.firstName.getD existing.firstName,
    lastName := data.lastName.getD existing.lastName,
    gender := data.gender.getD existing.gender,
    age := data.age.getD existing.age,
    year := data.year.getD existing.year,
    dateOfBirth := data.dateOfBirth.getD existing.dateOfBirth,
    email := data.email.getD existing.email,
    phone := data.phone.getD existing.phone,
    relationship := data.relationship.getD existing.relationship,
    district := data.district.getD existing.district,
    vdcMunicipality := data.vdcMunicipality.getD existing.vdcMunicipality,
    wardNo := data.wardNo.getD existing.wardNo,
    tole := data.tole.getD existing.tole,
    createdAt := existing.createdAt,
    updatedAt := some now }

/-- The `mutationFn` of `useUpdatePatient` after the cached lookup: throws
`Patient not found` when the detail entry is absent, otherwise returns the
merged entity. -/
def updateMutationFn (cached : Option PatientH) (data : PartialCreatePatientData)
    (now : String) : Except String PatientH :=
  match cached with
  | none => .error "Patient not found"
  | some existing => .ok (mergePatient existing data now)

/-- A cache effect issued against the React Query client. -/
inductive CacheOp where
  | invalidateKey (k : List String)
  | setDataKey (k : List String) (p : PatientH)
  | removeKey (k : List String)
deriving DecidableEq

/-- Handler `useCreatePatient` `onSuccess` (`src/api/patient-hooks.ts:228`):
invalidate the list key; the response is otherwise unused. -/
def createOnSuccess (_response : CreateRelativeResponse) : List CacheOp :=
  [CacheOp.invalidateKey listsKey]

/-- Handler `useUpdatePatient` `onSuccess` (`src/api/patient-hooks.ts:321`): write
the updated entity into its detail key, then invalidate the list key. -/
def updateOnSuccess (updatedPatient : PatientH) : List CacheOp :=
  [CacheOp.setDataKey (detailKey updatedPatient.id) updatedPatient,
   CacheOp.invalidateKey listsKey]

/-- Handler `useDeletePatient` `onSuccess` (`src/api/patient-hooks.ts:348`): remove
the detail key, then invalidate the list key. -/
def deleteOnSuccess (deletedId : String) : List CacheOp :=
  [CacheOp.removeKey (detailKey deletedId), CacheOp.invalidateKey listsKey]

end Hooks

/-- Split a character list at every occurrence of a separator. -/
def splitOnChar (c : Char) : List Char → List (List Char)
  | [] => [[]]
  | x :: xs =>
    match splitOnChar c xs with
    | [] => [[]]
    | g :: gs => if x = c then [] :: g :: gs else (x :: g) :: gs

/-- Read a non-empty all-digit character list as a number. -/
def digitsToNat? (l : List Char) : Option Nat :=
  if l = [] then none
  else if l.all Char.isDigit then
    some (l.foldl (fun a c => a * 10 + (c.toNat - 48)) 0)
  else none

/-- A concrete `YYYY/MM/DD` digit parser standing in for JS date parsing in
concrete evaluations; any other shape is an Invalid Date. The month is
0-based, as JS `getMonth` reports it. -/
def parseSlashDate (s : String) : Option SimpleDate :=
  match splitOnChar '/' s.data with
  | [y, m, d] =>
    match digitsToNat? y, digitsToNat? m, digitsToNat? d with
    | some yn, some mn, some dn =>
      some { year := (yn : Int), month := (mn : Int) - 1, day := (dn : Int) }
    | _, _, _ => none
  | _ => none

/-- Two-digit zero padding for date formatting. -/
def pad2 (n : Int) : String :=
  let s := toString n
  if s.length < 2 then "0" ++ s else s

/-- A concrete date environment for witnesses and counterexamples. -/
def env0 : DateEnv :=
  { parse := parseSlashDate,
    today := { year := 2026, month := 9, day := 11 },
    isoFormat := fun d => toString d.year ++ "/" ++ pad2 (d.month + 1) ++ "/" ++ pad2 d.day,
    todayFormatted := "2026/10/11" }

/-- A raw record carrying a present but unparseable date of birth. -/
def badDobRecord : Slice.RawRecord :=
  { midasid := some "1", fname := some "A", dobbs := some "not-a-date" }

/-- A successful create response for lifecycle scenarios. -/
def createOkResponse : Slice.ApiResponse :=
  { message := "Relative added", type := "success" }

/-- A transport failure carrying only an `error.message`. -/
def transportFail : TransportError :=
  { responseDataMessage := none, message := some "timeout" }

/-- A sample patient for concrete store states. -/
def patientOne : Slice.Patient :=
  { id := "1", firstName := "A", lastName := "B", gender := "male",
    age := "30", year := "Years", dateOfBirth := "1990/01/01", email := "",
    phone := "", relationship := "self", district := "District K",
    vdcMunicipality := "Municipality A", wardNo := "1", tole := "T",
    createdAt := "2026/10/11", updatedAt := "2026/10/11" }

/-- A second sample patient with a different identifier. -/
def patientTwo : Slice.Patient :=
  { patientOne with id := "2", firstName := "C", relationship := "relative" }

/-- A concrete store state holding the two sample patients. -/
def stateTwo : Slice.PatientState :=
  { patients := [patientOne, patientTwo], loading := false,
    error := none, successMessage := none }

/-- A replacement payload sharing `patientTwo`'s identifier. -/
def patientTwoEdited : Slice.Patient :=
  { patientTwo with firstName := "Z" }

/-- A concrete form whose gender is `other`. -/
def formOther : Slice.PatientFormData :=
  { firstName := "A", lastName := "B", gender := "other", age := "30",
    year := "Years", dateOfBirth := "1990/01/01", email := "", phone := "",
    relationship := "other", district := "kathmandu",
    vdcMunicipality := "municipality_a", wardNo := "1", tole := "X" }

/-! ## Helper lemmas -/

/-- Function `findIndexP` returns `none` exactly when no element satisfies the
predicate. -/
theorem findIndexP_eq_none_iff {α : Type} (p : α → Bool) (l : List α) :
    Slice.findIndexP p l = none ↔ ∀ x ∈ l, p x = false := by
  induction l with
  | nil => simp [Slice.findIndexP]
  | cons x xs ih =>
    by_cases hx : p x
    · simp [Slice.findIndexP, hx]
    · simp [Slice.findIndexP, hx, Option.map_eq_none', ih]

/-- When `Slice.findIndexP` returns an index, that index is in range, the element
there satisfies the predicate, and nothing before it does. -/
theorem findIndexP_eq_some {α : Type} {p : α → Bool} {l : List α} {i : Nat}
    (h : Slice.findIndexP p l = some i) :
    i < l.length ∧ (∃ a, l[i]? = some a ∧ p a = true) ∧
      ∀ j, j < i → ∀ b, l[j]? = some b → p b = false := by
  induction l generalizing i with
  | nil => simp [Slice.findIndexP] at h
  | cons x xs ih =>
    by_cases hx : p x
    · simp [Slice.findIndexP, hx] at h
      subst h
      refine ⟨Nat.succ_pos _, ⟨x, by simp, hx⟩, ?_⟩
      intro j hj
      omega
    · simp [Slice.findIndexP, hx] at h
      obtain ⟨i', hi', rfl⟩ := h
      obtain ⟨hlen, ⟨a, ha, hpa⟩, hbefore⟩ := ih hi'
      refine ⟨by simpa using Nat.succ_lt_succ hlen, ⟨a, by simpa using ha, hpa⟩, ?_⟩
      intro j hj b hb
      cases j with
      | zero =>
        simp at hb
        subst hb
        simpa using hx
      | succ k =>
        simp at hb
        exact hbefore k (Nat.lt_of_succ_lt_succ hj) b hb

/-! ## Claim theorems -/

/-- C9: the store-path and cache-path district registries assign different
codes to the same name: `kathmandu` encodes to `46` in the store path and
to `45` in the cache path, so the two district encoders are not
extensionally equal. -/
theorem district_registries_disagree :
    Slice.getDistrictId "kathmandu" = "46" ∧
    Hooks.getDistrictId "kathmandu" = "45" ∧
    Slice.getDistrictId "kathmandu" ≠ Hooks.getDistrictId "kathmandu" := by
  refine ⟨by decide, by decide, by decide⟩

/-- C7: in the cache path, create, update and delete all invalidate the
collection-level list key on success; update also writes the merged entity
(existing entity overlaid with the partial form data and a fresh
`updatedAt`) into that entity's detail key, and delete removes the detail
key outright. -/
theorem cache_mutation_protocol (existing : Hooks.PatientH)
    (d : Hooks.PartialCreatePatientData) (now : String) (id : String)
    (r : Hooks.CreateRelativeResponse) :
    Hooks.createOnSuccess r = [Hooks.CacheOp.invalidateKey Hooks.listsKey] ∧
    Hooks.updateMutationFn (some existing) d now =
      Except.ok (Hooks.mergePatient existing d now) ∧
    (Hooks.mergePatient existing d now).id = existing.id ∧
    Hooks.updateOnSuccess (Hooks.mergePatient existing d now) =
      [Hooks.CacheOp.setDataKey (Hooks.detailKey existing.id)
        (Hooks.mergePatient existing d now),
       Hooks.CacheOp.invalidateKey Hooks.listsKey] ∧
    Hooks.deleteOnSuccess id =
      [Hooks.CacheOp.removeKey (Hooks.detailKey id),
       Hooks.CacheOp.invalidateKey Hooks.listsKey] :=
  ⟨rfl, rfl, rfl, rfl, rfl⟩

/-- C6: a successful create operation ends with `loading = false`, the
success message taken from the remote response message, a cleared error,
and the patient list exactly as before the operation. -/
theorem create_success_preserves_list (st : Slice.PatientState) (msg : String)
    (lst : Option (List (Option Slice.RawRecord))) (myO : Option Slice.RawRecord) :
    Slice.createLifecycle st
      (TransportResult.ok { message := msg, type := "success", list := lst, my := myO }) =
    { patients := st.patients, loading := false, error := none,
      successMessage := some msg } := by
  simp [Slice.createLifecycle, Slice.createPatientThunk, Slice.createPending,
    Slice.createFulfilled]

/-- C4 counterexample: the claim says both transformers map gender `other`
to `Other`; the store-path transformer maps it to `Female` instead (the
cache path does produce `Other`). -/
theorem gender_other_counterexample :
    (Slice.createApiData formOther).gender = "Female" ∧
    (("Female" : String) ≠ "Other") ∧
    (Hooks.buildCreateRelativeRequest formOther).gender = "Other" := by
  refine ⟨by decide, by decide, by decide⟩

/-- C4 amended: the store-path payload maps gender `male` to `Male` and
every other form gender (including `female` and `other`) to `Female`; the
cache-path payload capitalizes the first letter of the form gender, so
`male` maps to `Male`, `female` to `Female` and `other` to `Other`. -/
theorem gender_mapping_amended :
    (∀ form : Slice.PatientFormData,
      (Slice.createApiData form).gender =
        if form.gender = "male" then "Male" else "Female") ∧
    (∀ form : Slice.PatientFormData,
      (Hooks.buildCreateRelativeRequest form).gender =
        Hooks.capitalizeFirst form.gender) ∧
    Hooks.capitalizeFirst "male" = "Male" ∧
    Hooks.capitalizeFirst "female" = "Female" ∧
    Hooks.capitalizeFirst "other" = "Other" := by
  refine ⟨fun form => rfl, fun form => rfl, by decide, by decide, by decide⟩

/-- C3: the code does return `Unknown` when both date-of-birth fields are
absent, but on a present, unparseable date of birth it returns the string
`NaN` rather than `Unknown`: `new Date` never throws, the Invalid Date has
NaN components, and `String(NaN)` is `"NaN"`, so the `catch` meant to
produce `Unknown` is dead code. -/
theorem calculateAge_unparseable_yields_NaN :
    (Slice.transformPatientData env0 badDobRecord).age = "NaN" ∧
    (("NaN" : String) ≠ "Unknown") ∧
    ∀ (env : DateEnv) (r : Slice.RawRecord),
      (Slice.transformPatientData env { r with dobbs := none, dobad := none }).age
        = "Unknown" := by
  refine ⟨by decide, by decide, fun env r => rfl⟩

/-- Function `jsOrD` never returns the empty string when the default is non-empty. -/
theorem jsOrD_ne_empty (o : Option String) (d : String) (hd : d ≠ "") :
    jsOrD o d ≠ "" := by
  cases o with
  | none => simpa [jsOrD] using hd
  | some s => by_cases hs : s = "" <;> simp [jsOrD, hs, hd]

/-- Fetch lifecycle transitions never write or clear the success message. -/
theorem fetchLifecycle_successMessage (env : DateEnv) (st : Slice.PatientState)
    (tr : TransportResult Slice.ApiResponse) :
    (Slice.fetchLifecycle env st tr).successMessage = st.successMessage := by
  cases tr with
  | err e =>
    simp [Slice.fetchLifecycle, Slice.fetchPatientsThunk, Slice.fetchPending,
      Slice.fetchRejected]
  | ok resp =>
    by_cases hr : resp.type = "success" <;>
      simp [Slice.fetchLifecycle, Slice.fetchPatientsThunk, Slice.fetchPending,
        Slice.fetchRejected, Slice.fetchFulfilled, hr]

/-- A create lifecycle never ends with both messages populated. -/
theorem createLifecycle_not_both (st : Slice.PatientState)
    (tr : TransportResult Slice.ApiResponse) :
    ¬((Slice.createLifecycle st tr).error ≠ none ∧
      (Slice.createLifecycle st tr).successMessage ≠ none) := by
  cases tr with
  | err e =>
    simp [Slice.createLifecycle, Slice.createPatientThunk, Slice.createPending,
      Slice.createRejected]
  | ok resp =>
    by_cases hr : resp.type = "success" <;>
      simp [Slice.createLifecycle, Slice.createPatientThunk, Slice.createPending,
        Slice.createRejected, Slice.createFulfilled, hr]

/-- C1: a success-typed fetch response whose `list` elements are all
records replaces the entire patient list with the transformed `my` record
first (when present) followed by the transformed list elements in order,
sets `loading` to false and clears the error; the success message is
untouched. -/
theorem fetch_success_replaces_list (env : DateEnv) (st : Slice.PatientState)
    (msg : String) (myO : Option Slice.RawRecord) (rs : List Slice.RawRecord) :
    Slice.fetchLifecycle env st
      (TransportResult.ok
        { message := msg, type := "success", list := some (rs.map some), my := myO }) =
    { patients := (myO.map (Slice.transformPatientData env)).toList
        ++ rs.map (Slice.transformPatientData env),
      loading := false, error := none, successMessage := st.successMessage } := by
  cases myO with
  | none =>
    simp [Slice.fetchLifecycle, Slice.fetchPatientsThunk, Slice.fetchPending,
      Slice.fetchFulfilled, List.filterMap_map, Function.comp]
  | some m =>
    simp [Slice.fetchLifecycle, Slice.fetchPatientsThunk, Slice.fetchPending,
      Slice.fetchFulfilled, List.filterMap_map, Function.comp]

/-- C2 counterexample: on a non-success remote response carrying the
message `Server says no`, the store error is the fixed string
`Failed to fetch patients from server`, not the remote-supplied message
the claim requires. -/
theorem fetch_error_message_counterexample :
    (Slice.fetchLifecycle env0 Slice.initialState
      (TransportResult.ok { message := "Server says no", type := "error" })).error
      = some "Failed to fetch patients from server" ∧
    (some "Failed to fetch patients from server" : Option String)
      ≠ some "Server says no" := by
  refine ⟨by decide, by decide⟩

/-- C2 amended: every failed fetch leaves the patient list unchanged, sets
`loading` to false and a non-null error; on a non-success remote response
the error is the fixed string `Failed to fetch patients from server`
regardless of the remote message, while on a transport error it is the
most specific available message (remote response message if present, else
the transport error message, else a generic fallback). -/
theorem fetch_failure_amended (env : DateEnv) (st : Slice.PatientState)
    (resp : Slice.ApiResponse) (e : TransportError)
    (h : resp.type ≠ "success") :
    Slice.fetchLifecycle env st (TransportResult.ok resp) =
      { patients := st.patients, loading := false,
        error := some "Failed to fetch patients from server",
        successMessage := st.successMessage } ∧
    Slice.fetchLifecycle env st (TransportResult.err e) =
      { patients := st.patients, loading := false,
        error := some (jsOrD e.responseDataMessage
          (jsOrD e.message "Network error occurred while fetching patients")),
        successMessage := st.successMessage } := by
  constructor
  · simp [Slice.fetchLifecycle, Slice.fetchPatientsThunk, h,
      Slice.fetchPending, Slice.fetchRejected]
  · simp [Slice.fetchLifecycle, Slice.fetchPatientsThunk, errMessage,
      Slice.fetchPending, Slice.fetchRejected]

/-- C2 amended witness: concrete instance with a non-success response. -/
theorem fetch_failure_amended_witness :
    Slice.fetchLifecycle env0 Slice.initialState
      (TransportResult.ok { message := "m", type := "error" }) =
    { patients := [], loading := false,
      error := some "Failed to fetch patients from server",
      successMessage := none } :=
  (fetch_failure_amended env0 Slice.initialState
    { message := "m", type := "error" } transportFail (by decide)).1

/-- C5: each encode function in both transformer implementations is total
and non-degenerate (it never produces the empty code), and on any name
absent from its table it returns the designated default: `9`, `46` and
`1147` for relationship, district and VDC in the store path, and `9`,
`45` and `1147` in the cache path. -/
theorem encoders_total_with_defaults (name : String) :
    (Slice.getRelationshipId name ≠ "" ∧
      (lookupTbl Slice.relationMap (jsToLower name) = none →
        Slice.getRelationshipId name = "9")) ∧
    (Slice.getDistrictId name ≠ "" ∧
      (lookupTbl Slice.districtMap (jsToLower name) = none →
        Slice.getDistrictId name = "46")) ∧
    (Slice.getVdcId name ≠ "" ∧
      (lookupTbl Slice.vdcMap (jsToLower name) = none →
        Slice.getVdcId name = "1147")) ∧
    (Hooks.getRelationId name ≠ "" ∧
      (lookupTbl Hooks.relationMap (jsToLower name) = none →
        Hooks.getRelationId name = "9")) ∧
    (Hooks.getDistrictId name ≠ "" ∧
      (lookupTbl Hooks.districtMap (jsToLower name) = none →
        Hooks.getDistrictId name = "45")) ∧
    (Hooks.getVdcId name ≠ "" ∧
      (lookupTbl Hooks.vdcMap (jsToLower name) = none →
        Hooks.getVdcId name = "1147")) := by
  refine ⟨⟨jsOrD_ne_empty _ _ (by decide), fun h => ?_⟩,
    ⟨jsOrD_ne_empty _ _ (by decide), fun h => ?_⟩,
    ⟨jsOrD_ne_empty _ _ (by decide), fun h => ?_⟩,
    ⟨jsOrD_ne_empty _ _ (by decide), fun h => ?_⟩,
    ⟨jsOrD_ne_empty _ _ (by decide), fun h => ?_⟩,
    ⟨jsOrD_ne_empty _ _ (by decide), fun h => ?_⟩⟩
  · simp [Slice.getRelationshipId, h, jsOrD]
  · simp [Slice.getDistrictId, h, jsOrD]
  · simp [Slice.getVdcId, h, jsOrD]
  · simp [Hooks.getRelationId, h, jsOrD]
  · simp [Hooks.getDistrictId, h, jsOrD]
  · simp [Hooks.getVdcId, h, jsOrD]

/-- C5 witness: the unrecognized name `Unknown City` takes every default. -/
theorem encoders_total_with_defaults_witness :
    Slice.getRelationshipId "Unknown City" = "9" ∧
    Slice.getDistrictId "Unknown City" = "46" ∧
    Slice.getVdcId "Unknown City" = "1147" ∧
    Hooks.getRelationId "Unknown City" = "9" ∧
    Hooks.getDistrictId "Unknown City" = "45" ∧
    Hooks.getVdcId "Unknown City" = "1147" :=
  ⟨(encoders_total_with_defaults "Unknown City").1.2 (by decide),
   (encoders_total_with_defaults "Unknown City").2.1.2 (by decide),
   (encoders_total_with_defaults "Unknown City").2.2.1.2 (by decide),
   (encoders_total_with_defaults "Unknown City").2.2.2.1.2 (by decide),
   (encoders_total_with_defaults "Unknown City").2.2.2.2.1.2 (by decide),
   (encoders_total_with_defaults "Unknown City").2.2.2.2.2.2 (by decide)⟩

/-- C8 counterexample: after a successful create (success message set), a
failing fetch reaches, within that single fetch lifecycle, a state whose
error and success message are both non-null, because no fetch transition
clears the success message. -/
theorem messages_both_set_counterexample :
    (Slice.fetchLifecycle env0
      (Slice.createLifecycle Slice.initialState (TransportResult.ok createOkResponse))
      (TransportResult.err transportFail)).error = some "timeout" ∧
    (Slice.fetchLifecycle env0
      (Slice.createLifecycle Slice.initialState (TransportResult.ok createOkResponse))
      (TransportResult.err transportFail)).successMessage = some "Relative added" := by
  refine ⟨by decide, by decide⟩

/-- C8 amended: a create lifecycle never reaches a state with both
messages non-null (its pending transition clears both); a fetch lifecycle
guarantees this only when the success message was null when the fetch
started, because fetch transitions neither write nor clear the success
message; each message persists until explicitly cleared (`clearError`,
`clearSuccessMessage`) or overwritten by a later transition. -/
theorem message_exclusivity_amended (env : DateEnv) (st : Slice.PatientState)
    (outF outC : TransportResult Slice.ApiResponse) :
    (¬((Slice.createPending st).error ≠ none ∧
       (Slice.createPending st).successMessage ≠ none)) ∧
    (¬((Slice.createLifecycle st outC).error ≠ none ∧
       (Slice.createLifecycle st outC).successMessage ≠ none)) ∧
    (st.successMessage = none →
      (¬((Slice.fetchPending st).error ≠ none ∧
         (Slice.fetchPending st).successMessage ≠ none)) ∧
      (¬((Slice.fetchLifecycle env st outF).error ≠ none ∧
         (Slice.fetchLifecycle env st outF).successMessage ≠ none))) ∧
    (Slice.fetchPending st).successMessage = st.successMessage ∧
    (Slice.fetchLifecycle env st outF).successMessage = st.successMessage ∧
    Slice.clearError st = { st with error := none } ∧
    Slice.clearSuccessMessage st = { st with successMessage := none } := by
  refine ⟨?_, createLifecycle_not_both st outC, ?_, ?_,
    fetchLifecycle_successMessage env st outF, rfl, rfl⟩
  · simp [Slice.createPending]
  · intro hsm
    constructor
    · simp [Slice.fetchPending, hsm]
    · intro hboth
      exact hboth.2 ((fetchLifecycle_successMessage env st outF).trans hsm)
  · simp [Slice.fetchPending]

/-- C8 amended witness: concrete instance discharging the null success
message hypothesis. -/
theorem message_exclusivity_amended_witness :
    ¬((Slice.fetchLifecycle env0 Slice.initialState
        (TransportResult.err transportFail)).error ≠ none ∧
      (Slice.fetchLifecycle env0 Slice.initialState
        (TransportResult.err transportFail)).successMessage ≠ none) :=
  ((message_exclusivity_amended env0 Slice.initialState
    (TransportResult.err transportFail)
    (TransportResult.ok createOkResponse)).2.2.1 (by decide)).2

/-- C10: the `updatePatient` reducer is a pure replace-by-identifier:
with no matching identifier the state is returned unchanged (nothing is
inserted); with a match, only the first matching entry is replaced, while
the list length, every other entry, and the `loading`, `error` and
`successMessage` fields are unchanged. -/
theorem updatePatient_replace_by_id (st : Slice.PatientState)
    (payload : Slice.Patient) :
    ((∀ q ∈ st.patients, q.id ≠ payload.id) →
      Slice.updatePatient st payload = st) ∧
    (∀ i, Slice.findIndexP (fun p => p.id == payload.id) st.patients = some i →
      (Slice.updatePatient st payload).loading = st.loading ∧
      (Slice.updatePatient st payload).error = st.error ∧
      (Slice.updatePatient st payload).successMessage = st.successMessage ∧
      (Slice.updatePatient st payload).patients.length = st.patients.length ∧
      (Slice.updatePatient st payload).patients[i]? = some payload ∧
      (∀ j, j ≠ i → (Slice.updatePatient st payload).patients[j]? = st.patients[j]?) ∧
      (∃ q, st.patients[i]? = some q ∧ q.id = payload.id) ∧
      (∀ j q, j < i → st.patients[j]? = some q → q.id ≠ payload.id)) := by
  constructor
  · intro h
    have hnone : Slice.findIndexP (fun p => p.id == payload.id) st.patients = none := by
      rw [findIndexP_eq_none_iff]
      intro x hx
      simpa using h x hx
    simp [Slice.updatePatient, hnone]
  · intro i hi
    obtain ⟨hlen, ⟨a, ha, hpa⟩, hbefore⟩ := findIndexP_eq_some hi
    have hup : Slice.updatePatient st payload =
        { st with patients := st.patients.set i payload } := by
      simp [Slice.updatePatient, hi]
    refine ⟨by simp [hup], by simp [hup], by simp [hup],
      by simp [hup, List.length_set], ?_, ?_, ?_, ?_⟩
    · rw [hup]
      exact List.getElem?_set_eq_of_lt payload hlen
    · intro j hj
      rw [hup]
      exact List.getElem?_set_ne (fun hh => hj hh.symm)
    · exact ⟨a, ha, by simpa using hpa⟩
    · intro j q hj hq
      simpa using hbefore j hj q hq

/-- C10 witness: a non-matching payload leaves a concrete state unchanged;
a matching payload lands at the match index. -/
theorem updatePatient_replace_by_id_witness :
    Slice.updatePatient stateTwo { patientOne with id := "3" } = stateTwo ∧
    (Slice.updatePatient stateTwo patientTwoEdited).patients[1]? = some patientTwoEdited :=
  ⟨(updatePatient_replace_by_id stateTwo { patientOne with id := "3" }).1 (by decide),
   ((updatePatient_replace_by_id stateTwo patientTwoEdited).2 1 (by decide)).2.2.2.2.1⟩
